import Mathlib

/-!
Verification of the geocoding notebook (src/completed/Geocoding addresses DONE.ipynb).

The notebook is a linear script:
* cell-1: imports (geopy GoogleV3, csv, time);
* cell-5: `address_file = open('payday_lenders.csv', 'rb')` and
  `input_file = csv.DictReader(address_file)`;
* cell-7: `geocoded_file = open('payday_geocoded.csv', 'wb')`;
* cell-9: `output_fields = [...]`, `output = csv.DictWriter(geocoded_file, output_fields)`,
  `output.writeheader()`;
* cell-11: the geocoding loop
  `for row in input_file:`
  `  if input_file.line_num <= 6:`
  `    addr = (row['STADDR']+' '+row['STADDR2']).strip()+', '+row['CITY']+', '+row['STATE']+' '+row['ZIP']`
  `    location = geolocator.geocode(addr)`
  `    row['LAT_Y'] = location.latitude` (crashes with AttributeError when location is None)
  `    row['LONG_X'] = location.longitude`
  `    row['MATCH_ADDR'] = location.address`
  `    output.writerow(row)`
  `    print('Attempted geocode of ...'.format(addr, input_file.line_num))`
  `    time.sleep(2)`
  `  else:`
  `    print('All done!')`
  `    break`

The embedding below models rows as records with the seven input columns, the external
geocoder as a function `String → Option GeoResult`, and a run of the script as the list
of observable events it performs (header write, provider call, row write, console print,
sleep) together with a flag recording whether the run crashed on a failed geocode.
Each input row is modelled as occupying one physical line of the CSV file, so the
DictReader's `line_num` for the i-th data row (1-based) is `i + 1`; the first data row
is on line 2, matching the notebook's own printed output.
Python string `.strip()` removes the whitespace characters space, tab, newline,
vertical tab, form feed and carriage return from both ends.
-/

namespace Geocode

/-- The characters removed by Python's `str.strip()` with no arguments. -/
def isPySpace (c : Char) : Bool :=
  c = ' ' || c = '\t' || c = '\n' || c = '\x0b' || c = '\x0c' || c = '\r'

/-- Python `str.strip()` on the underlying character list: remove `isPySpace`
characters from both ends (trailing side first; the order does not matter). -/
def pyStripList (l : List Char) : List Char :=
  ((l.reverse.dropWhile isPySpace).reverse).dropWhile isPySpace

/-- Python `str.strip()`: remove whitespace from both ends of a string. -/
def pyStrip (s : String) : String :=
  ⟨pyStripList s.data⟩

/-- One row of the input CSV `payday_lenders.csv` as produced by `csv.DictReader`
from the seven-column header: a mapping with exactly these seven string fields. -/
structure InputRecord where
  NAME : String
  DBA : String
  STADDR : String
  STADDR2 : String
  CITY : String
  STATE : String
  ZIP : String
deriving DecidableEq, Repr, Inhabited

/-- The result of a successful `geolocator.geocode` call: the matched address and the
coordinates. The numeric coordinates are carried opaquely as strings, since the script
only copies them into the output row. -/
structure GeoResult where
  address : String
  latitude : String
  longitude : String
deriving DecidableEq, Repr, Inhabited

/-- A row of the output CSV: the seven input fields plus the three fields the loop
adds from the geocode result. -/
structure OutputRecord where
  NAME : String
  DBA : String
  STADDR : String
  STADDR2 : String
  CITY : String
  STATE : String
  ZIP : String
  MATCH_ADDR : String
  LAT_Y : String
  LONG_X : String
deriving DecidableEq, Repr, Inhabited

/-- cell-9: `output_fields = ['NAME', 'DBA', 'STADDR', 'STADDR2', 'CITY', 'STATE',
'ZIP', 'MATCH_ADDR', 'LAT_Y', 'LONG_X']`. -/
def output_fields : List String :=
  ["NAME", "DBA", "STADDR", "STADDR2", "CITY", "STATE", "ZIP",
   "MATCH_ADDR", "LAT_Y", "LONG_X"]

/-- cell-11: `addr = (row['STADDR']+' '+row['STADDR2']).strip()+', '+row['CITY']+', '
+row['STATE']+' '+row['ZIP']`. -/
def buildAddr (r : InputRecord) : String :=
  pyStrip (r.STADDR ++ " " ++ r.STADDR2) ++ ", " ++ r.CITY ++ ", " ++ r.STATE ++ " " ++ r.ZIP

/-- cell-11: the three assignments `row['LAT_Y'] = location.latitude`,
`row['LONG_X'] = location.longitude`, `row['MATCH_ADDR'] = location.address` applied to
a row that has exactly the seven reader fields. -/
def enrich (r : InputRecord) (res : GeoResult) : OutputRecord :=
  { NAME := r.NAME, DBA := r.DBA, STADDR := r.STADDR, STADDR2 := r.STADDR2,
    CITY := r.CITY, STATE := r.STATE, ZIP := r.ZIP,
    MATCH_ADDR := res.address, LAT_Y := res.latitude, LONG_X := res.longitude }

/- Helper lemmas about strings and stripping. -/

theorem strData_append (a b : String) : (a ++ b).data = a.data ++ b.data := by
  cases a; cases b; rfl

theorem strEq_of_data {a b : String} (h : a.data = b.data) : a = b := by
  cases a; cases b; exact congrArg String.mk h

/-- Appending one trailing space does not change the result of stripping. -/
theorem pyStripList_append_space (l : List Char) :
    pyStripList (l ++ [' ']) = pyStripList l := by
  unfold pyStripList
  have h : (l ++ [' ']).reverse.dropWhile isPySpace = l.reverse.dropWhile isPySpace := by
    have hsp : isPySpace ' ' = true := by decide
    simp [List.reverse_append, List.dropWhile_cons, hsp]
  rw [h]

theorem pyStrip_append_space (s : String) : pyStrip (s ++ " ") = pyStrip s := by
  unfold pyStrip
  rw [strData_append]
  exact congrArg String.mk (pyStripList_append_space s.data)

/-- C1. When `STADDR2` is empty, the assembled query is exactly the stripped `STADDR`
directly followed by `", CITY, STATE ZIP"`: the single space the code inserts between
the two street fields is removed by `.strip()`, so no double space and no stray
material appears between the street and the first comma. -/
theorem addrQuery_empty_staddr2 (r : InputRecord) (h : r.STADDR2 = "") :
    buildAddr r = pyStrip r.STADDR ++ ", " ++ r.CITY ++ ", " ++ r.STATE ++ " " ++ r.ZIP := by
  unfold buildAddr
  rw [h]
  have h2 : r.STADDR ++ " " ++ "" = r.STADDR ++ " " := by
    apply strEq_of_data
    rw [strData_append]
    simp
  rw [h2, pyStrip_append_space]

/-- The record from the spec example with empty STADDR2. -/
def c1Row : InputRecord :=
  { NAME := "PAYDAY LOAN STORE", DBA := "", STADDR := "8983 Potter Road",
    STADDR2 := "", CITY := "Des Plaines", STATE := "IL", ZIP := "60016" }

/-- C1 witness: the spec example.  `STADDR="8983 Potter Road"`, `STADDR2=""`,
`CITY="Des Plaines"`, `STATE="IL"`, `ZIP="60016"` assembles to exactly
`"8983 Potter Road, Des Plaines, IL 60016"`. -/
theorem addrQuery_empty_staddr2_example :
    c1Row.STADDR2 = "" ∧ buildAddr c1Row = "8983 Potter Road, Des Plaines, IL 60016" :=
  ⟨rfl, (addrQuery_empty_staddr2 c1Row rfl).trans (by decide)⟩

/- C2: containment of one list of characters in another, as the claim's
"the query contains STADDR and STADDR2 separated by exactly one space". -/

/-- Truth of `leadsWith pat l`: true when `l` starts with the characters of `pat`. -/
def leadsWith : List Char → List Char → Bool
  | [], _ => true
  | _ :: _, [] => false
  | a :: pa, b :: lb => a == b && leadsWith pa lb

/-- Truth of `occursIn pat l`: true when `pat` occurs contiguously somewhere inside `l`. -/
def occursIn (pat : List Char) : List Char → Bool
  | [] => leadsWith pat []
  | l@(_ :: rest) => leadsWith pat l || occursIn pat rest

theorem leadsWith_append_self (pat rest : List Char) :
    leadsWith pat (pat ++ rest) = true := by
  induction pat with
  | nil => rfl
  | cons a pa ih => simp [leadsWith, ih]

theorem occursIn_append_self (pat rest : List Char) (hp : pat ≠ []) :
    occursIn pat (pat ++ rest) = true := by
  cases pat with
  | nil => exact absurd rfl hp
  | cons a pa =>
    have hl := leadsWith_append_self (a :: pa) rest
    rw [List.cons_append] at hl
    show occursIn (a :: pa) (a :: (pa ++ rest)) = true
    simp only [occursIn, hl, Bool.true_or]

/-- A record falsifying C2 as stated: STADDR has a leading space, STADDR2 is
non-empty. -/
def c2CexRow : InputRecord :=
  { NAME := "N", DBA := "D", STADDR := " 320 West Illinois Route 173", STADDR2 := "Suite B",
    CITY := "Antioch", STATE := "IL", ZIP := "60002" }

/-- C2 counterexample: for this record STADDR2 is non-empty, yet the assembled query
does not contain STADDR followed by one space followed by STADDR2, because `.strip()`
removed STADDR's leading space from the combined street portion: the code strips the
combined string only, not the individual fields, so a field with outer whitespace
breaks the claimed shape. -/
theorem addrQuery_staddr2_cex :
    c2CexRow.STADDR2 ≠ "" ∧
      occursIn (c2CexRow.STADDR ++ " " ++ c2CexRow.STADDR2).data
        (buildAddr c2CexRow).data = false := by
  constructor
  · decide
  · decide

/-- From `dropWhile p l = l` with `l = c :: t` conclude `p c = false`. -/
theorem head_false_of_dropWhile_eq {p : Char → Bool} {c : Char} {t : List Char}
    (h : (c :: t).dropWhile p = c :: t) : p c = false := by
  have h0 := List.dropWhile_eq_self_iff.mp h (by simp)
  simpa using h0

/-- If a list is non-empty and is unchanged by a leading `dropWhile`, prepending it to
anything leaves the `dropWhile` with nothing to do. -/
theorem dropWhile_append_of_fixed {p : Char → Bool} {a : List Char} (rest : List Char)
    (ha : a ≠ []) (hfix : a.dropWhile p = a) :
    (a ++ rest).dropWhile p = a ++ rest := by
  cases a with
  | nil => exact absurd rfl ha
  | cons c t =>
    have hc : p c = false := head_false_of_dropWhile_eq hfix
    simp [List.dropWhile_cons, hc]

/-- Stripping does nothing to `a ++ ' ' :: b` when `a` has no leading whitespace and
`b` has no trailing whitespace and both are non-empty. -/
theorem pyStripList_fixed {a b : List Char} (ha : a ≠ []) (hb : b ≠ [])
    (h1 : a.dropWhile isPySpace = a)
    (h2 : b.reverse.dropWhile isPySpace = b.reverse) :
    pyStripList (a ++ ' ' :: b) = a ++ ' ' :: b := by
  unfold pyStripList
  have hrev : (a ++ ' ' :: b).reverse = b.reverse ++ (' ' :: a.reverse) := by
    simp
  have hbrev : b.reverse ≠ [] := by
    simpa using hb
  rw [hrev, dropWhile_append_of_fixed _ hbrev h2]
  have hback : (b.reverse ++ ' ' :: a.reverse).reverse = a ++ ' ' :: b := by
    simp
  rw [hback, dropWhile_append_of_fixed _ ha h1]

/-- C2 amended: for records whose STADDR is non-empty with no leading whitespace and
whose STADDR2 is non-empty with no trailing whitespace, the assembled query is STADDR,
one space, STADDR2, then ", CITY, STATE ZIP"; in particular it contains STADDR and
STADDR2 separated by exactly one space, with no leading or trailing whitespace in the
street portion. -/
theorem addrQuery_nonempty_staddr2 (r : InputRecord)
    (hA : r.STADDR ≠ "") (hB : r.STADDR2 ≠ "")
    (h1 : r.STADDR.data.dropWhile isPySpace = r.STADDR.data)
    (h2 : r.STADDR2.data.reverse.dropWhile isPySpace = r.STADDR2.data.reverse) :
    buildAddr r =
      r.STADDR ++ " " ++ r.STADDR2 ++ ", " ++ r.CITY ++ ", " ++ r.STATE ++ " " ++ r.ZIP ∧
    occursIn (r.STADDR ++ " " ++ r.STADDR2).data (buildAddr r).data = true := by
  have haN : r.STADDR.data ≠ [] := by
    intro h
    exact hA (strEq_of_data h)
  have hbN : r.STADDR2.data ≠ [] := by
    intro h
    exact hB (strEq_of_data h)
  have hdata : (r.STADDR ++ " " ++ r.STADDR2).data =
      r.STADDR.data ++ ' ' :: r.STADDR2.data := by
    rw [strData_append, strData_append]
    simp [String.data]
  have hstrip : pyStrip (r.STADDR ++ " " ++ r.STADDR2) = r.STADDR ++ " " ++ r.STADDR2 := by
    apply strEq_of_data
    show pyStripList (r.STADDR ++ " " ++ r.STADDR2).data = _
    rw [hdata, pyStripList_fixed haN hbN h1 h2, ← hdata]
  have hmain : buildAddr r =
      r.STADDR ++ " " ++ r.STADDR2 ++ ", " ++ r.CITY ++ ", " ++ r.STATE ++ " " ++ r.ZIP := by
    unfold buildAddr
    rw [hstrip]
  refine ⟨hmain, ?_⟩
  rw [hmain]
  have hsplit : (r.STADDR ++ " " ++ r.STADDR2 ++ ", " ++ r.CITY ++ ", " ++ r.STATE ++ " "
      ++ r.ZIP).data = (r.STADDR ++ " " ++ r.STADDR2).data ++
      (", " ++ r.CITY ++ ", " ++ r.STATE ++ " " ++ r.ZIP).data := by
    simp only [strData_append, List.append_assoc]
  rw [hsplit]
  apply occursIn_append_self
  rw [hdata]
  exact List.append_ne_nil_of_left_ne_nil haN _

/-- A well-formed record with split street fields, used to instantiate C2. -/
def c2Row : InputRecord :=
  { NAME := "N", DBA := "D", STADDR := "320 West Illinois Route 173", STADDR2 := "Suite B",
    CITY := "Antioch", STATE := "IL", ZIP := "60002" }

/-- C2 witness: for a record with trimmed non-empty street fields, the amended claim
yields the exact query of the notebook's own printed output for that row. -/
theorem addrQuery_nonempty_staddr2_example :
    buildAddr c2Row = "320 West Illinois Route 173 Suite B, Antioch, IL 60002" ∧
      occursIn (c2Row.STADDR ++ " " ++ c2Row.STADDR2).data (buildAddr c2Row).data = true := by
  have h := addrQuery_nonempty_staddr2 c2Row (by decide) (by decide) (by decide) (by decide)
  exact ⟨h.1.trans (by decide), h.2⟩

/- The run model: the observable events of the script, in order. -/

/-- cell-11: the printed progress line
`'Attempted geocode of {0}, row {1}.'.format(addr, input_file.line_num)`. -/
def progressMsg (addr : String) (lineNum : Nat) : String :=
  "Attempted geocode of " ++ addr ++ ", row " ++ toString lineNum ++ "."

/-- One observable action of the script: writing the CSV header, calling the provider,
writing an output row, printing a console line, or sleeping for a number of seconds. -/
inductive Event where
  | writeHeader (fields : List String)
  | call (query : String)
  | write (row : OutputRecord)
  | print (msg : String)
  | sleep (seconds : Nat)
deriving DecidableEq, Repr

/-- cell-11: the `for row in input_file` loop, from the state where the reader's
`line_num` is `lineNum - 1` and `rows` are the not-yet-consumed data rows (each row on
one physical line, so consuming the next row sets `line_num = lineNum`).  Returns the
events performed, paired with `true` when the run crashed because `geolocator.geocode`
returned `None` and `location.latitude` raised AttributeError.  On such a crash the
loop has performed the provider call but neither writes, prints, nor sleeps, and it
reads no further row.  When `line_num` exceeds 6 the loop prints `All done!` and
breaks without geocoding the row just read. -/
def geoLoop (g : String → Option GeoResult) : Nat → List InputRecord → List Event × Bool
  | _, [] => ([], false)
  | lineNum, r :: rest =>
    if lineNum ≤ 6 then
      match g (buildAddr r) with
      | none => ([Event.call (buildAddr r)], true)
      | some res =>
        let p := geoLoop g (lineNum + 1) rest
        (Event.call (buildAddr r) :: Event.write (enrich r res) ::
          Event.print (progressMsg (buildAddr r) lineNum) :: Event.sleep 2 :: p.1, p.2)
    else
      ([Event.print "All done!"], false)

/-- The whole script: cell-9 writes the header once, then cell-11 runs the loop with
the first data row about to be read on line 2. -/
def scriptRun (g : String → Option GeoResult) (rows : List InputRecord) :
    List Event × Bool :=
  let p := geoLoop g 2 rows
  (Event.writeHeader output_fields :: p.1, p.2)

/-- The output rows written during a run, in order. -/
def writtenRows (evs : List Event) : List OutputRecord :=
  evs.filterMap fun e =>
    match e with
    | Event.write r => some r
    | _ => none

/-- The provider queries issued during a run, in order. -/
def callQueries (evs : List Event) : List String :=
  evs.filterMap fun e =>
    match e with
    | Event.call q => some q
    | _ => none

/-- The console lines printed during a run, in order. -/
def printedMsgs (evs : List Event) : List String :=
  evs.filterMap fun e =>
    match e with
    | Event.print m => some m
    | _ => none

/-- The number of header lines written during a run. -/
def headerCount (evs : List Event) : Nat :=
  evs.countP fun e =>
    match e with
    | Event.writeHeader _ => true
    | _ => false

theorem writtenRows_cons_call (q : String) (evs : List Event) :
    writtenRows (Event.call q :: evs) = writtenRows evs := rfl

/-- When every provider call succeeds, the loop writes and geocodes
`min (7 - lineNum) rows.length` rows, never crashes, and prints `All done!` exactly
when more rows than the cap remain. -/
theorem geoLoop_success (g : String → Option GeoResult)
    (hg : ∀ q, (g q).isSome = true) :
    ∀ (rows : List InputRecord) (lineNum : Nat),
      (writtenRows (geoLoop g lineNum rows).1).length = min (7 - lineNum) rows.length ∧
      (geoLoop g lineNum rows).2 = false ∧
      (callQueries (geoLoop g lineNum rows).1).length = min (7 - lineNum) rows.length ∧
      (7 - lineNum < rows.length → Event.print "All done!" ∈ (geoLoop g lineNum rows).1) := by
  intro rows
  induction rows with
  | nil =>
    intro lineNum
    simp [geoLoop, writtenRows, callQueries]
  | cons r rest ih =>
    intro lineNum
    by_cases hln : lineNum ≤ 6
    · obtain ⟨res, hres⟩ := Option.isSome_iff_exists.mp (hg (buildAddr r))
      have hmin : 7 - lineNum = (6 - lineNum) + 1 := by omega
      have hev : geoLoop g lineNum (r :: rest) =
          (Event.call (buildAddr r) :: Event.write (enrich r res) ::
            Event.print (progressMsg (buildAddr r) lineNum) :: Event.sleep 2 ::
            (geoLoop g (lineNum + 1) rest).1, (geoLoop g (lineNum + 1) rest).2) := by
        simp [geoLoop, hln, hres]
      obtain ⟨ihW, ihC, ihQ, ihD⟩ := ih (lineNum + 1)
      have hsub : 7 - (lineNum + 1) = 6 - lineNum := by omega
      rw [hsub] at ihW ihQ ihD
      refine ⟨?_, ?_, ?_, ?_⟩
      · rw [hev]
        simp only [writtenRows, List.filterMap_cons] at ihW ⊢
        simp only [List.length_cons, ihW, hmin]
        omega
      · rw [hev]
        exact ihC
      · rw [hev]
        simp only [callQueries, List.filterMap_cons] at ihQ ⊢
        simp only [List.length_cons, ihQ, hmin]
        omega
      · intro hlen
        rw [hev]
        have hlen2 : 6 - lineNum < rest.length := by
          simp only [List.length_cons] at hlen
          omega
        have := ihD hlen2
        simp [this]
    · have hev : geoLoop g lineNum (r :: rest) = ([Event.print "All done!"], false) := by
        simp [geoLoop, hln]
      have hmin : 7 - lineNum = 0 := by omega
      rw [hev, hmin]
      simp [writtenRows, callQueries]

/-- C3. Assuming every provider call succeeds, the number of rows written equals
`min 5 (number of input data rows)`; the same number of geocode calls are made (so
rows past the cap are never geocoded); the run ends without error; and when the input
has more than 5 data rows the `All done!` completion message is printed. -/
theorem rowCap_output_count (g : String → Option GeoResult) (rows : List InputRecord)
    (hg : ∀ q, (g q).isSome = true) :
    (writtenRows (scriptRun g rows).1).length = min 5 rows.length ∧
    (scriptRun g rows).2 = false ∧
    (callQueries (scriptRun g rows).1).length = min 5 rows.length ∧
    (5 < rows.length → Event.print "All done!" ∈ (scriptRun g rows).1) := by
  obtain ⟨hW, hC, hQ, hD⟩ := geoLoop_success g hg rows 2
  have h5 : (7 : Nat) - 2 = 5 := by omega
  rw [h5] at hW hQ hD
  refine ⟨?_, ?_, ?_, ?_⟩
  · simpa [scriptRun, writtenRows, List.filterMap_cons] using hW
  · simpa [scriptRun] using hC
  · simpa [scriptRun, callQueries, List.filterMap_cons] using hQ
  · intro hlen
    have := hD hlen
    simp [scriptRun, this]

/-- A geocoder that succeeds on every query, echoing the query as the match. -/
def alwaysGeo : String → Option GeoResult :=
  fun q => some { address := q, latitude := "41.0", longitude := "-87.9" }

/-- Eight concrete input rows. -/
def eightRows : List InputRecord :=
  [{ NAME := "L1", DBA := "", STADDR := "1 A St", STADDR2 := "", CITY := "C1",
     STATE := "IL", ZIP := "60001" },
   { NAME := "L2", DBA := "", STADDR := "2 B St", STADDR2 := "", CITY := "C2",
     STATE := "IL", ZIP := "60002" },
   { NAME := "L3", DBA := "", STADDR := "3 C St", STADDR2 := "", CITY := "C3",
     STATE := "IL", ZIP := "60003" },
   { NAME := "L4", DBA := "", STADDR := "4 D St", STADDR2 := "", CITY := "C4",
     STATE := "IL", ZIP := "60004" },
   { NAME := "L5", DBA := "", STADDR := "5 E St", STADDR2 := "", CITY := "C5",
     STATE := "IL", ZIP := "60005" },
   { NAME := "L6", DBA := "", STADDR := "6 F St", STADDR2 := "", CITY := "C6",
     STATE := "IL", ZIP := "60006" },
   { NAME := "L7", DBA := "", STADDR := "7 G St", STADDR2 := "", CITY := "C7",
     STATE := "IL", ZIP := "60007" },
   { NAME := "L8", DBA := "", STADDR := "8 H St", STADDR2 := "", CITY := "C8",
     STATE := "IL", ZIP := "60008" }]

/-- C3 witness: with 8 input data rows and an always-succeeding provider, exactly 5
rows are written, exactly 5 geocode calls are made, the run does not crash, and the
completion message is printed. -/
theorem rowCap_output_count_example :
    (writtenRows (scriptRun alwaysGeo eightRows).1).length = 5 ∧
    (scriptRun alwaysGeo eightRows).2 = false ∧
    (callQueries (scriptRun alwaysGeo eightRows).1).length = 5 ∧
    Event.print "All done!" ∈ (scriptRun alwaysGeo eightRows).1 := by
  have h := rowCap_output_count alwaysGeo eightRows (fun q => rfl)
  exact ⟨h.1.trans (by decide), h.2.1, h.2.2.1.trans (by decide), h.2.2.2 (by decide)⟩

/-- A provider that fails every query (geopy returns `None` when there is no match). -/
def neverGeo : String → Option GeoResult :=
  fun _ => none

/-- A row whose geocode the failing provider rejects, for C4. -/
def c4Row : InputRecord :=
  { NAME := "SHORT TERM LOANS LLC", DBA := "", STADDR := "19 Pullen Road",
    STADDR2 := "", CITY := "Metropolis", STATE := "IL", ZIP := "62960" }

/-- C4: when the provider call for a row fails, the script dereferences the `None`
result (`location.latitude`) and crashes with an AttributeError; nothing at all is
printed, so the failure is not logged with the row's identifying fields, contradicting
the requirement that a GeocodeFailure must never pass unlogged. -/
theorem geocodeFailure_crash_unlogged :
    (scriptRun neverGeo [c4Row]).2 = true ∧
      printedMsgs (scriptRun neverGeo [c4Row]).1 = [] ∧
      writtenRows (scriptRun neverGeo [c4Row]).1 = [] := by
  refine ⟨rfl, rfl, rfl⟩

/- C5: separation of provider calls by sleeps, over the event trace. -/

/-- Truth of `callsSep inCall evs`: true when no two provider calls occur in `evs` without a
sleep between them; `inCall` records whether a call has been seen with no sleep yet. -/
def callsSep : Bool → List Event → Bool
  | _, [] => true
  | inCall, e :: rest =>
    match e, inCall with
    | Event.call _, true => false
    | Event.call _, false => callsSep true rest
    | Event.sleep _, _ => callsSep false rest
    | _, _ => callsSep inCall rest

/-- True when every sleep event in the trace pauses for exactly 2 seconds. -/
def sleepsAreTwo (evs : List Event) : Bool :=
  evs.all fun e =>
    match e with
    | Event.sleep s => s == 2
    | _ => true

/-- True when every provider call is eventually followed by a sleep event. -/
def sleepAfterEachCall : List Event → Bool
  | [] => true
  | Event.call _ :: rest =>
    (rest.any fun e =>
      match e with
      | Event.sleep _ => true
      | _ => false) && sleepAfterEachCall rest
  | _ :: rest => sleepAfterEachCall rest

/-- A row for the C5 counterexample run. -/
def c5Row : InputRecord :=
  { NAME := "AMERICASH LOANS LLC", DBA := "", STADDR := "1251D North Skokie Highway",
    STADDR2 := "", CITY := "Lake Bluff", STATE := "IL", ZIP := "60044" }

/-- C5 counterexample: when a provider call fails, the run crashes on the result
dereference before ever reaching `time.sleep(2)`, so the delay is not applied after a
failed call — the claim that the delay is applied after each call regardless of
success or failure is false on the code. -/
theorem sleep_after_each_call_cex :
    sleepAfterEachCall (scriptRun neverGeo [c5Row]).1 = false := by
  rfl

theorem geoLoop_callsSep (g : String → Option GeoResult) :
    ∀ (rows : List InputRecord) (lineNum : Nat),
      callsSep false (geoLoop g lineNum rows).1 = true := by
  intro rows
  induction rows with
  | nil =>
    intro lineNum
    rfl
  | cons r rest ih =>
    intro lineNum
    by_cases hln : lineNum ≤ 6
    · cases hres : g (buildAddr r) with
      | none =>
        simp [geoLoop, hln, hres, callsSep]
      | some res =>
        have hev : (geoLoop g lineNum (r :: rest)).1 =
            Event.call (buildAddr r) :: Event.write (enrich r res) ::
              Event.print (progressMsg (buildAddr r) lineNum) :: Event.sleep 2 ::
              (geoLoop g (lineNum + 1) rest).1 := by
          simp [geoLoop, hln, hres]
        rw [hev]
        show callsSep false (geoLoop g (lineNum + 1) rest).1 = true
        exact ih (lineNum + 1)
    · simp [geoLoop, hln, callsSep]

theorem geoLoop_sleepsAreTwo (g : String → Option GeoResult) :
    ∀ (rows : List InputRecord) (lineNum : Nat),
      sleepsAreTwo (geoLoop g lineNum rows).1 = true := by
  intro rows
  induction rows with
  | nil =>
    intro lineNum
    rfl
  | cons r rest ih =>
    intro lineNum
    by_cases hln : lineNum ≤ 6
    · cases hres : g (buildAddr r) with
      | none => simp [geoLoop, hln, hres, sleepsAreTwo]
      | some res =>
        have hev : (geoLoop g lineNum (r :: rest)).1 =
            Event.call (buildAddr r) :: Event.write (enrich r res) ::
              Event.print (progressMsg (buildAddr r) lineNum) :: Event.sleep 2 ::
              (geoLoop g (lineNum + 1) rest).1 := by
          simp [geoLoop, hln, hres]
        rw [hev]
        have := ih (lineNum + 1)
        simp [sleepsAreTwo] at this ⊢
        exact this
    · simp [geoLoop, hln, sleepsAreTwo]

/-- C5 amended: every sleep in a run pauses for exactly 2 seconds, and between any two
provider calls a sleep occurs — after a successful call the script always sleeps
before the next call, and a failed call crashes the run so no further call follows it.
Hence no second provider call ever starts without a 2-second pause after the previous
one, but the pause is not performed after a failed call (see the counterexample). -/
theorem sleep_between_consecutive_calls (g : String → Option GeoResult)
    (rows : List InputRecord) :
    callsSep false (scriptRun g rows).1 = true ∧
      sleepsAreTwo (scriptRun g rows).1 = true := by
  constructor
  · show callsSep false (Event.writeHeader output_fields :: (geoLoop g 2 rows).1) = true
    show callsSep false (geoLoop g 2 rows).1 = true
    exact geoLoop_callsSep g rows 2
  · show sleepsAreTwo (Event.writeHeader output_fields :: (geoLoop g 2 rows).1) = true
    have := geoLoop_sleepsAreTwo g rows 2
    simp [sleepsAreTwo] at this ⊢
    exact this

/-- C5 amended witness: on the 8-row all-success run, calls are separated by sleeps
and every sleep is 2 seconds. -/
theorem sleep_between_consecutive_calls_example :
    callsSep false (scriptRun alwaysGeo eightRows).1 = true ∧
      sleepsAreTwo (scriptRun alwaysGeo eightRows).1 = true :=
  sleep_between_consecutive_calls alwaysGeo eightRows

/- C6: the header invariant. -/

theorem geoLoop_headerCount (g : String → Option GeoResult) :
    ∀ (rows : List InputRecord) (lineNum : Nat),
      headerCount (geoLoop g lineNum rows).1 = 0 := by
  intro rows
  induction rows with
  | nil =>
    intro lineNum
    rfl
  | cons r rest ih =>
    intro lineNum
    by_cases hln : lineNum ≤ 6
    · cases hres : g (buildAddr r) with
      | none => simp [geoLoop, hln, hres, headerCount]
      | some res =>
        have hev : (geoLoop g lineNum (r :: rest)).1 =
            Event.call (buildAddr r) :: Event.write (enrich r res) ::
              Event.print (progressMsg (buildAddr r) lineNum) :: Event.sleep 2 ::
              (geoLoop g (lineNum + 1) rest).1 := by
          simp [geoLoop, hln, hres]
        rw [hev]
        have := ih (lineNum + 1)
        simp [headerCount, List.countP_cons] at this ⊢
        exact this
    · simp [geoLoop, hln, headerCount]

/-- C6. In every run, the very first event is the single header write, carrying
exactly the 10 column names NAME, DBA, STADDR, STADDR2, CITY, STATE, ZIP, MATCH_ADDR,
LAT_Y, LONG_X in that order; no other header write occurs, so every data row is
written strictly after the header. -/
theorem header_written_once_first (g : String → Option GeoResult)
    (rows : List InputRecord) :
    (scriptRun g rows).1.head? =
      some (Event.writeHeader
        ["NAME", "DBA", "STADDR", "STADDR2", "CITY", "STATE", "ZIP",
         "MATCH_ADDR", "LAT_Y", "LONG_X"]) ∧
      headerCount (scriptRun g rows).1 = 1 := by
  constructor
  · rfl
  · show headerCount (Event.writeHeader output_fields :: (geoLoop g 2 rows).1) = 1
    have := geoLoop_headerCount g rows 2
    simp [headerCount, List.countP_cons] at this ⊢
    exact this

/-- C6 witness: the header invariant on the concrete 8-row run. -/
theorem header_written_once_first_example :
    (scriptRun alwaysGeo eightRows).1.head? =
      some (Event.writeHeader
        ["NAME", "DBA", "STADDR", "STADDR2", "CITY", "STATE", "ZIP",
         "MATCH_ADDR", "LAT_Y", "LONG_X"]) ∧
      headerCount (scriptRun alwaysGeo eightRows).1 = 1 :=
  header_written_once_first alwaysGeo eightRows

/- C9: the written rows carry the input fields unchanged plus the provider's three
result fields. -/

theorem geoLoop_written_enrich (g : String → Option GeoResult) :
    ∀ (rows : List InputRecord) (lineNum : Nat) (w : OutputRecord),
      w ∈ writtenRows (geoLoop g lineNum rows).1 →
      ∃ r ∈ rows, ∃ res, g (buildAddr r) = some res ∧ w = enrich r res := by
  intro rows
  induction rows with
  | nil =>
    intro lineNum w hw
    simp [geoLoop, writtenRows] at hw
  | cons r rest ih =>
    intro lineNum w hw
    by_cases hln : lineNum ≤ 6
    · cases hres : g (buildAddr r) with
      | none =>
        rw [show geoLoop g lineNum (r :: rest) = ([Event.call (buildAddr r)], true) by
          simp [geoLoop, hln, hres]] at hw
        simp [writtenRows] at hw
      | some res =>
        have hev : (geoLoop g lineNum (r :: rest)).1 =
            Event.call (buildAddr r) :: Event.write (enrich r res) ::
              Event.print (progressMsg (buildAddr r) lineNum) :: Event.sleep 2 ::
              (geoLoop g (lineNum + 1) rest).1 := by
          simp [geoLoop, hln, hres]
        rw [hev] at hw
        simp only [writtenRows, List.filterMap_cons] at hw
        have hw2 : w = enrich r res ∨ w ∈ writtenRows (geoLoop g (lineNum + 1) rest).1 := by
          simpa [writtenRows] using hw
        rcases hw2 with heq | hmem
        · exact ⟨r, List.mem_cons_self r rest, res, hres, heq⟩
        · obtain ⟨r2, hr2, res2, hres2, heq2⟩ := ih (lineNum + 1) w hmem
          exact ⟨r2, List.mem_cons_of_mem r hr2, res2, hres2, heq2⟩
    · rw [show geoLoop g lineNum (r :: rest) = ([Event.print "All done!"], false) by
        simp [geoLoop, hln]] at hw
      simp [writtenRows] at hw

/-- C9. Every row written by a run comes from some input row `r` whose geocode
succeeded with some result `res`: the seven input fields NAME, DBA, STADDR, STADDR2,
CITY, STATE, ZIP are carried over unchanged, and the only added fields are MATCH_ADDR,
LAT_Y, LONG_X, taken from the provider's result. -/
theorem output_preserves_input_fields (g : String → Option GeoResult)
    (rows : List InputRecord) (w : OutputRecord)
    (hw : w ∈ writtenRows (scriptRun g rows).1) :
    ∃ r ∈ rows, ∃ res, g (buildAddr r) = some res ∧
      w.NAME = r.NAME ∧ w.DBA = r.DBA ∧ w.STADDR = r.STADDR ∧ w.STADDR2 = r.STADDR2 ∧
      w.CITY = r.CITY ∧ w.STATE = r.STATE ∧ w.ZIP = r.ZIP ∧
      w.MATCH_ADDR = res.address ∧ w.LAT_Y = res.latitude ∧ w.LONG_X = res.longitude := by
  have hw2 : w ∈ writtenRows (geoLoop g 2 rows).1 := hw
  obtain ⟨r, hr, res, hres, heq⟩ := geoLoop_written_enrich g rows 2 w hw2
  refine ⟨r, hr, res, hres, ?_⟩
  subst heq
  simp [enrich]

/-- The result `alwaysGeo` returns for the C1 example row's query. -/
def c9Res : GeoResult :=
  { address := buildAddr c1Row, latitude := "41.0", longitude := "-87.9" }

/-- C9 witness: in the one-row run with the echoing provider, the single written row
preserves the input fields and carries the provider's result. -/
theorem output_preserves_input_fields_example :
    ∃ r ∈ [c1Row], ∃ res, alwaysGeo (buildAddr r) = some res ∧
      (enrich c1Row c9Res).NAME = r.NAME ∧ (enrich c1Row c9Res).DBA = r.DBA ∧
      (enrich c1Row c9Res).STADDR = r.STADDR ∧ (enrich c1Row c9Res).STADDR2 = r.STADDR2 ∧
      (enrich c1Row c9Res).CITY = r.CITY ∧ (enrich c1Row c9Res).STATE = r.STATE ∧
      (enrich c1Row c9Res).ZIP = r.ZIP ∧ (enrich c1Row c9Res).MATCH_ADDR = res.address ∧
      (enrich c1Row c9Res).LAT_Y = res.latitude ∧ (enrich c1Row c9Res).LONG_X = res.longitude :=
  output_preserves_input_fields alwaysGeo [c1Row] (enrich c1Row c9Res) (by decide)

/- C10: a failed geocode truncates the run after the preceding successes. -/

theorem geoLoop_fail (g : String → Option GeoResult) :
    ∀ (m : Nat) (rows : List InputRecord) (lineNum : Nat),
      m < rows.length → lineNum + m ≤ 6 →
      (∀ i, i < m → (g (buildAddr (rows.getD i default))).isSome = true) →
      g (buildAddr (rows.getD m default)) = none →
      geoLoop g lineNum rows = geoLoop g lineNum (rows.take (m + 1)) ∧
      (geoLoop g lineNum rows).2 = true ∧
      writtenRows (geoLoop g lineNum rows).1 =
        (rows.take m).filterMap (fun r => (g (buildAddr r)).map (enrich r)) ∧
      callQueries (geoLoop g lineNum rows).1 = (rows.take (m + 1)).map buildAddr ∧
      (printedMsgs (geoLoop g lineNum rows).1).length = m := by
  intro m
  induction m with
  | zero =>
    intro rows lineNum hlen hcap hsucc hfail
    cases rows with
    | nil => simp at hlen
    | cons r rest =>
      have hln : lineNum ≤ 6 := by omega
      have hfr : g (buildAddr r) = none := by
        simpa using hfail
      have hev : geoLoop g lineNum (r :: rest) = ([Event.call (buildAddr r)], true) := by
        simp [geoLoop, hln, hfr]
      have hev2 : geoLoop g lineNum ((r :: rest).take 1) = ([Event.call (buildAddr r)], true) := by
        simp [geoLoop, hln, hfr]
      rw [hev, hev2]
      simp [writtenRows, callQueries, printedMsgs]
  | succ m ih =>
    intro rows lineNum hlen hcap hsucc hfail
    cases rows with
    | nil => simp at hlen
    | cons r rest =>
      have hln : lineNum ≤ 6 := by omega
      have h0 : (g (buildAddr r)).isSome = true := by
        simpa using hsucc 0 (Nat.succ_pos m)
      obtain ⟨res, hres⟩ := Option.isSome_iff_exists.mp h0
      have hsucc2 : ∀ i, i < m → (g (buildAddr (rest.getD i default))).isSome = true := by
        intro i hi
        simpa using hsucc (i + 1) (by omega)
      have hfail2 : g (buildAddr (rest.getD m default)) = none := by
        simpa using hfail
      obtain ⟨ihT, ihC, ihW, ihQ, ihP⟩ :=
        ih rest (lineNum + 1) (by simpa using hlen) (by omega) hsucc2 hfail2
      have hev : geoLoop g lineNum (r :: rest) =
          (Event.call (buildAddr r) :: Event.write (enrich r res) ::
            Event.print (progressMsg (buildAddr r) lineNum) :: Event.sleep 2 ::
            (geoLoop g (lineNum + 1) rest).1, (geoLoop g (lineNum + 1) rest).2) := by
        simp [geoLoop, hln, hres]
      have htake : (r :: rest).take (m + 1 + 1) = r :: rest.take (m + 1) := rfl
      have hev2 : geoLoop g lineNum ((r :: rest).take (m + 1 + 1)) =
          (Event.call (buildAddr r) :: Event.write (enrich r res) ::
            Event.print (progressMsg (buildAddr r) lineNum) :: Event.sleep 2 ::
            (geoLoop g (lineNum + 1) (rest.take (m + 1))).1,
            (geoLoop g (lineNum + 1) (rest.take (m + 1))).2) := by
        rw [htake]
        simp [geoLoop, hln, hres]
      refine ⟨?_, ?_, ?_, ?_, ?_⟩
      · rw [hev, hev2, ihT]
      · rw [hev]
        exact ihC
      · rw [hev]
        show enrich r res :: writtenRows (geoLoop g (lineNum + 1) rest).1 = _
        rw [ihW]
        have : ((r :: rest).take (m + 1)).filterMap
            (fun r => (g (buildAddr r)).map (enrich r)) =
            enrich r res :: (rest.take m).filterMap
              (fun r => (g (buildAddr r)).map (enrich r)) := by
          rw [List.take_succ_cons, List.filterMap_cons, hres]
          rfl
        rw [this]
      · rw [hev]
        show buildAddr r :: callQueries (geoLoop g (lineNum + 1) rest).1 = _
        rw [ihQ, htake]
        rfl
      · rw [hev]
        show (progressMsg (buildAddr r) lineNum ::
          printedMsgs (geoLoop g (lineNum + 1) rest).1).length = m + 1
        simp [ihP]

/-- C10. If the geocode of the k-th processed row (1-based, k at most the row cap)
fails while the first k-1 succeed, then the run is identical to the run on just the
first k input rows — nothing after the k-th row is read, geocoded or written — the run
crashes, the rows written are exactly the enrichments of the first k-1 input rows in
order (an order-preserving initial segment of the successfully geocoded rows), the
queries issued are exactly those of the first k rows, and exactly k-1 progress lines
are printed, none for the k-th row. -/
theorem failure_truncates_run (g : String → Option GeoResult) (rows : List InputRecord)
    (k : Nat) (hk1 : 1 ≤ k) (hk5 : k ≤ 5) (hkl : k ≤ rows.length)
    (hsucc : ∀ i, i + 1 < k → (g (buildAddr (rows.getD i default))).isSome = true)
    (hfail : g (buildAddr (rows.getD (k - 1) default)) = none) :
    scriptRun g rows = scriptRun g (rows.take k) ∧
    (scriptRun g rows).2 = true ∧
    writtenRows (scriptRun g rows).1 =
      (rows.take (k - 1)).filterMap (fun r => (g (buildAddr r)).map (enrich r)) ∧
    callQueries (scriptRun g rows).1 = (rows.take k).map buildAddr ∧
    (printedMsgs (scriptRun g rows).1).length = k - 1 := by
  have hm : k - 1 + 1 = k := by omega
  obtain ⟨hT, hC, hW, hQ, hP⟩ := geoLoop_fail g (k - 1) rows 2 (by omega) (by omega)
    (fun i hi => hsucc i (by omega)) hfail
  rw [hm] at hT hQ
  refine ⟨?_, hC, ?_, ?_, hP⟩
  · show (Event.writeHeader output_fields :: (geoLoop g 2 rows).1, (geoLoop g 2 rows).2) = _
    rw [hT]
    rfl
  · have hhd : writtenRows (Event.writeHeader output_fields :: (geoLoop g 2 rows).1) =
        writtenRows (geoLoop g 2 rows).1 := rfl
    exact hhd.trans hW
  · have hhd : callQueries (Event.writeHeader output_fields :: (geoLoop g 2 rows).1) =
        callQueries (geoLoop g 2 rows).1 := rfl
    exact hhd.trans hQ

/-- First row for the C10 witness run: its geocode succeeds. -/
def c10RowA : InputRecord :=
  { NAME := "A LENDER", DBA := "", STADDR := "8261 West Belmont Avenue", STADDR2 := "",
    CITY := "River Grove", STATE := "IL", ZIP := "60171" }

/-- Second row for the C10 witness run: its geocode fails. -/
def c10RowB : InputRecord :=
  { NAME := "B LENDER", DBA := "", STADDR := "0 Nowhere Lane", STADDR2 := "",
    CITY := "Atlantis", STATE := "IL", ZIP := "00000" }

/-- The C10 result returned for the first row's query. -/
def c10Res : GeoResult :=
  { address := "8261 W Belmont Ave, River Grove, IL 60171, USA", latitude := "41.93",
    longitude := "-87.83" }

/-- A provider that matches only the first witness row's query. -/
def c10Geo : String → Option GeoResult :=
  fun q => if q = buildAddr c10RowA then some c10Res else none

/-- C10 witness: with two rows where the second geocode fails, exactly the first row
is written, the run crashes, both queries were issued, and one progress line was
printed. -/
theorem failure_truncates_run_example :
    writtenRows (scriptRun c10Geo [c10RowA, c10RowB]).1 = [enrich c10RowA c10Res] ∧
    (scriptRun c10Geo [c10RowA, c10RowB]).2 = true ∧
    callQueries (scriptRun c10Geo [c10RowA, c10RowB]).1 =
      [buildAddr c10RowA, buildAddr c10RowB] ∧
    (printedMsgs (scriptRun c10Geo [c10RowA, c10RowB]).1).length = 1 := by
  have h := failure_truncates_run c10Geo [c10RowA, c10RowB] 2 (by omega) (by omega)
    (by decide)
    (by
      intro i hi
      have h0 : i = 0 := by omega
      subst h0
      decide)
    (by decide)
  exact ⟨h.2.2.1.trans (by decide), h.2.1, h.2.2.2.1.trans (by decide), h.2.2.2.2⟩

/- C7: the Record Reader is `open(...)` plus `csv.DictReader` (cell-5).  Python 2.7's
`open` raises IOError (the FileNotFoundError kind) when the path is missing.
`csv.DictReader.next` builds `dict(zip(self.fieldnames, row))` and then, when the row
has fewer fields than the header, fills the missing keys with `restval` (None by
default), and when it has more, stores the extra values under `restkey` (None by
default); it raises nothing on a field-count mismatch. -/

/-- The seven input columns of `payday_lenders.csv`, as the header defines them. -/
def input_fields : List String :=
  ["NAME", "DBA", "STADDR", "STADDR2", "CITY", "STATE", "ZIP"]

/-- The value stored under one key of the dict `csv.DictReader.next` returns: a string
cell, the `restval` placeholder `None` for a missing field, or the list of extra
fields stored under the `restkey`. -/
inductive CellV where
  | str (v : String)
  | restvalNone
  | extras (vs : List String)
deriving DecidableEq, Repr

/-- Model of `csv.DictReader.next` on one raw row: keys are `some fieldname` or `none` (the
`restkey`).  `dict(zip(fieldnames, row))`, then missing fields get `restval` and extra
fields are collected under the `restkey`. -/
def dictReaderNext (fieldnames row : List String) : List (Option String × CellV) :=
  ((fieldnames.zip (row.map CellV.str)).map fun kv => (some kv.1, kv.2))
    ++ ((fieldnames.drop row.length).map fun k => (some k, CellV.restvalNone))
    ++ (if fieldnames.length < row.length then
          [(none, CellV.extras (row.drop fieldnames.length))]
        else [])

/-- Model recording that `csv.DictReader.next` never raises on a field-count mismatch; wrapping its result
in `Except` records that no error path exists. -/
def dictReaderNextE (fieldnames row : List String) :
    Except String (List (Option String × CellV)) :=
  Except.ok (dictReaderNext fieldnames row)

/-- cell-5: `open('payday_lenders.csv', 'rb')`.  The input is `none` when no file
exists at the path, in which case Python 2 `open` raises IOError. -/
def openInput : Option (List (List String)) → Except String (List (List String))
  | none => Except.error "IOError: No such file or directory"
  | some content => Except.ok content

/-- C7 counterexample: a data row with six fields under the seven-field header is
accepted by the reader (the missing ZIP is silently set to the None restval), where
the claim requires a MalformedRowError-kind failure. -/
theorem reader_field_count_cex :
    (dictReaderNextE input_fields
      ["ABC LOANS", "", "12 Main St", "", "Springfield", "IL"]).isOk = true ∧
    dictReaderNext input_fields ["ABC LOANS", "", "12 Main St", "", "Springfield", "IL"] =
      [(some "NAME", CellV.str "ABC LOANS"), (some "DBA", CellV.str ""),
       (some "STADDR", CellV.str "12 Main St"), (some "STADDR2", CellV.str ""),
       (some "CITY", CellV.str "Springfield"), (some "STATE", CellV.str "IL"),
       (some "ZIP", CellV.restvalNone)] := by
  constructor
  · rfl
  · rfl

/-- C7 amended: the Reader fails with a FileNotFoundError-kind error when the input
path is missing, but a data row whose field count differs from the header does not
fail: the reader always succeeds, filling missing fields with the restval and
collecting extra fields under the restkey. -/
theorem reader_open_and_mismatch (fieldnames row : List String) :
    (openInput none).isOk = false ∧
    (dictReaderNextE fieldnames row).isOk = true := by
  exact ⟨rfl, rfl⟩

/-- C7 amended witness: the amended behavior at the seven-column header and a
one-field-short row. -/
theorem reader_open_and_mismatch_example :
    (openInput none).isOk = false ∧
    (dictReaderNextE input_fields
      ["ABC LOANS", "", "12 Main St", "", "Springfield", "IL"]).isOk = true :=
  reader_open_and_mismatch input_fields ["ABC LOANS", "", "12 Main St", "", "Springfield", "IL"]

/- C8: the write step is `csv.DictWriter` (cell-9) used by `output.writerow(row)`
(cell-11).  Python 2.7's `DictWriter.writerow` raises ValueError when the dict has a
key outside `fieldnames` (`extrasaction='raise'` is the default), and otherwise writes
`[rowdict.get(key, self.restval) for key in self.fieldnames]` where `restval` defaults
to the empty string — a missing key is filled silently, not rejected. -/

/-- Model of `csv.DictWriter.writerow` for a dict with string keys and values: error on a key
outside the fieldnames, otherwise the cell values in fieldname order with missing keys
taking the empty restval. -/
def dictWriterRow (fieldnames : List String) (rowdict : List (String × String)) :
    Except String (List String) :=
  if rowdict.any (fun kv => !(fieldnames.contains kv.1)) then
    Except.error "ValueError: dict contains fields not in fieldnames"
  else
    Except.ok (fieldnames.map fun k => ((rowdict.lookup k).getD ""))

/-- A row dict supplying only 8 of the 10 output keys (LAT_Y and LONG_X missing). -/
def c8MissingDict : List (String × String) :=
  [("NAME", "XYZ LOANS"), ("DBA", ""), ("STADDR", "4 Oak St"), ("STADDR2", ""),
   ("CITY", "Peoria"), ("STATE", "IL"), ("ZIP", "61601"), ("MATCH_ADDR", "4 Oak St")]

/-- C8 counterexample: a record missing the LAT_Y and LONG_X keys is written
successfully — the missing cells are silently filled with the empty restval — where
the claim requires the write step to fail for any record not supplying exactly the 10
keys. -/
theorem writer_missing_keys_cex :
    (dictWriterRow output_fields c8MissingDict).isOk = true ∧
    dictWriterRow output_fields c8MissingDict =
      Except.ok ["XYZ LOANS", "", "4 Oak St", "", "Peoria", "IL", "61601",
                 "4 Oak St", "", ""] := by
  constructor
  · rfl
  · rfl

/-- C8 amended: a record with any key outside the 10 fixed output keys makes the write
step fail with a ValueError, and a record all of whose keys are among the 10 is
written successfully, its cells laid out in the fixed column order with keys it does
not supply filled by the empty restval.  (Exactly the 10 keys therefore write exactly
their 10 values in order; missing keys do not cause a failure.) -/
theorem writer_key_policy (rowdict : List (String × String)) :
    ((∃ kv ∈ rowdict, ¬ kv.1 ∈ output_fields) →
      (dictWriterRow output_fields rowdict).isOk = false) ∧
    ((∀ kv ∈ rowdict, kv.1 ∈ output_fields) →
      dictWriterRow output_fields rowdict =
        Except.ok (output_fields.map fun k => ((rowdict.lookup k).getD ""))) := by
  constructor
  · intro hex
    obtain ⟨kv, hkv, hnot⟩ := hex
    have hany : (rowdict.any fun kv => !(output_fields.contains kv.1)) = true := by
      rw [List.any_eq_true]
      refine ⟨kv, hkv, ?_⟩
      simp only [Bool.not_eq_true', ← Bool.not_eq_true]
      intro hc
      exact hnot (by simpa using hc)
    rw [dictWriterRow, if_pos hany]
    rfl
  · intro hall
    have hany : (rowdict.any fun kv => !(output_fields.contains kv.1)) = false := by
      rw [Bool.eq_false_iff]
      intro hsome
      obtain ⟨kv, hkv, hc⟩ := List.any_eq_true.mp hsome
      have : kv.1 ∈ output_fields := hall kv hkv
      simp [this] at hc
    rw [dictWriterRow, if_neg (by rw [hany]; exact Bool.false_ne_true)]

/-- The fully keyed dict of an enriched row, as the loop passes it to writerow. -/
def c8FullDict : List (String × String) :=
  [("NAME", "XYZ LOANS"), ("DBA", ""), ("STADDR", "4 Oak St"), ("STADDR2", ""),
   ("CITY", "Peoria"), ("STATE", "IL"), ("ZIP", "61601"),
   ("MATCH_ADDR", "4 Oak St, Peoria, IL 61601, USA"), ("LAT_Y", "40.69"),
   ("LONG_X", "-89.58")]

/-- C8 amended witness: a record supplying exactly the 10 keys is written with its 10
values in the fixed order, and adding an 11th key makes the write fail. -/
theorem writer_key_policy_example :
    dictWriterRow output_fields c8FullDict =
      Except.ok (output_fields.map fun k => ((c8FullDict.lookup k).getD "")) ∧
    (dictWriterRow output_fields (("COUNTY", "Peoria") :: c8FullDict)).isOk = false := by
  constructor
  · exact (writer_key_policy c8FullDict).2 (by decide)
  · exact (writer_key_policy (("COUNTY", "Peoria") :: c8FullDict)).1
      ⟨("COUNTY", "Peoria"), by decide, by decide⟩

end Geocode
